import Mathlib

/-!
Shallow embedding of the push-notification subsystem of the habit tracker
(server/index.js and server/subscriptions.js).

File I/O is modelled by explicit state passing: the three persisted JSON
documents (subscriptions array, settings object, notification-state object)
become fields of an explicit `ServerState`.  The external web-push delivery
capability is an injected function from a subscription to a send outcome.
Wall-clock inputs (today's date string, the current "HH:MM" time, epoch
milliseconds) are explicit parameters.
-/

set_option maxHeartbeats 1000000

/-- One registered push endpoint (subscriptions.json entry). -/
structure Subscription where
  endpoint : String
  keys : String
  createdAt : Option String
  deriving DecidableEq, Repr

/-- NotificationSettings as persisted in settings.json (DEFAULT_SETTINGS shape). -/
structure Settings where
  reminderTime : String
  habitRemindersEnabled : Bool
  taskRemindersEnabled : Bool
  quietHoursEnabled : Bool
  quietHoursStart : String
  quietHoursEnd : String
  deriving DecidableEq, Repr

/-- DEFAULT_SETTINGS from subscriptions.js. -/
def DEFAULT_SETTINGS : Settings :=
  { reminderTime := "20:00"
    habitRemindersEnabled := true
    taskRemindersEnabled := true
    quietHoursEnabled := false
    quietHoursStart := "22:00"
    quietHoursEnd := "08:00" }

/-- Dedup bookkeeping (notificationState.json): last-sent date for the daily
reminder and a task-id-to-epoch-millis map for task notifications. -/
structure NotificationState where
  habitReminderLastSent : Option String
  taskNotifications : List (String × Nat)
  deriving DecidableEq, Repr

/-- DEFAULT_STATE from subscriptions.js. -/
def DEFAULT_STATE : NotificationState :=
  { habitReminderLastSent := none, taskNotifications := [] }

/-- Lookup in the taskNotifications object (JS property read). -/
def lookupTN (m : List (String × Nat)) (k : String) : Option Nat :=
  (m.find? (fun p => p.1 == k)).map (fun p => p.2)

/-- JS property assignment on the taskNotifications object: overwrite an
existing key in place, otherwise append. -/
def insertTN (m : List (String × Nat)) (k : String) (v : Nat) : List (String × Nat) :=
  if m.any (fun p => p.1 == k) then
    m.map (fun p => if p.1 == k then (k, v) else p)
  else
    m ++ [(k, v)]

/-- The three persisted documents the server mutates. -/
structure ServerState where
  subs : List Subscription
  state : NotificationState
  settings : Settings
  deriving DecidableEq, Repr

/-- Outcome of one call to the injected web-push delivery capability. -/
inductive SendResult where
  | success
  | failure (statusCode : Nat)
  deriving DecidableEq, Repr

/-- The aggregate result object returned by sendToAllSubscribers. -/
structure DispatchResult where
  success : Nat
  failed : Nat
  total : Nat
  deriving DecidableEq, Repr

/-- addSubscription (subscriptions.js lines 128-144): refuse a duplicate
endpoint, otherwise append with a server-assigned createdAt. -/
def addSubscription (subscription : Subscription) (createdAtNow : String)
    (subs : List Subscription) : List Subscription × Bool :=
  if subs.any (fun s => s.endpoint == subscription.endpoint) then
    (subs, false)
  else
    (subs ++ [{ subscription with createdAt := some createdAtNow }], true)

/-- removeSubscription (subscriptions.js lines 151-163): filter out the
endpoint, persist only when the length shrank. -/
def removeSubscription (subs : List Subscription) (endpoint : String) :
    List Subscription × Bool :=
  let filtered := subs.filter (fun s => s.endpoint != endpoint)
  if filtered.length < subs.length then (filtered, true) else (subs, false)

/-- wasHabitReminderSentToday (subscriptions.js lines 219-223): compare the
persisted last-sent date with today's date string. -/
def wasHabitReminderSentToday (today : String) (state : NotificationState) : Bool :=
  state.habitReminderLastSent == some today

/-- markHabitReminderSent (subscriptions.js lines 228-232). -/
def markHabitReminderSent (today : String) (state : NotificationState) :
    NotificationState :=
  { state with habitReminderLastSent := some today }

/-- wasTaskNotificationSent (subscriptions.js lines 239-242): JS double
negation, so an absent entry and a stored 0 are both falsy. -/
def wasTaskNotificationSent (state : NotificationState) (taskId : String) : Bool :=
  (lookupTN state.taskNotifications taskId).getD 0 != 0

/-- markTaskNotificationSent (subscriptions.js lines 248-252): store
Date.now() under the task id. -/
def markTaskNotificationSent (taskId : String) (nowMs : Nat)
    (state : NotificationState) : NotificationState :=
  { state with taskNotifications := insertTN state.taskNotifications taskId nowMs }

/-- cleanupOldTaskNotifications (subscriptions.js lines 257-270): keep only
entries strictly newer than one week before nowMs. -/
def cleanupOldTaskNotifications (nowMs : Nat) (state : NotificationState) :
    NotificationState :=
  let weekAgo : Int := (nowMs : Int) - 7 * 24 * 60 * 60 * 1000
  { state with taskNotifications :=
      state.taskNotifications.filter (fun p => weekAgo < (p.2 : Int)) }

/-- Permanent-failure classification used by the dispatch loop
(index.js line 193): status 410 Gone or 404 Not Found. -/
def isPermanentFailure : SendResult → Bool
  | SendResult.success => false
  | SendResult.failure code => code == 410 || code == 404

/-- The for-loop of sendToAllSubscribers (index.js lines 184-198): iterate
the snapshot, count outcomes, prune the live registry on 410/404. -/
def sendLoop (sendFn : Subscription → SendResult) :
    List Subscription → List Subscription → Nat → Nat → Nat × Nat × List Subscription
  | [], registry, succ, fl => (succ, fl, registry)
  | sub :: rest, registry, succ, fl =>
    match sendFn sub with
    | SendResult.success => sendLoop sendFn rest registry (succ + 1) fl
    | SendResult.failure code =>
      if code == 410 || code == 404 then
        sendLoop sendFn rest (removeSubscription registry sub.endpoint).1 succ (fl + 1)
      else
        sendLoop sendFn rest registry succ (fl + 1)

/-- sendToAllSubscribers (index.js lines 179-202): returns the counts object
and, in this embedding, the registry as left on disk after pruning. -/
def sendToAllSubscribers (sendFn : Subscription → SendResult)
    (subs : List Subscription) : DispatchResult × List Subscription :=
  let r := sendLoop sendFn subs subs 0 0
  ({ success := r.1, failed := r.2.1, total := subs.length }, r.2.2)

/-- sendHabitReminder (index.js lines 207-231).  The Bool records whether a
dispatch was performed this call. -/
def sendHabitReminder (sendFn : Subscription → SendResult) (today : String)
    (st : ServerState) : ServerState × Bool :=
  if wasHabitReminderSentToday today st.state then (st, false)
  else if st.subs.length == 0 then (st, false)
  else
    let r := sendToAllSubscribers sendFn st.subs
    ({ st with subs := r.2, state := markHabitReminderSent today st.state }, true)

/-- JS fallback expr of the form (s or default-when-falsy) on strings. -/
def orDefault (s fallback : String) : String :=
  if s = "" then fallback else s

/-- Code-point lexicographic comparison of character sequences, the order a
JS string comparison uses on these ASCII time strings. -/
def ltChars : List Char → List Char → Bool
  | [], [] => false
  | [], _ :: _ => true
  | _ :: _, [] => false
  | a :: as, b :: bs =>
    if a.toNat < b.toNat then true
    else if b.toNat < a.toNat then false
    else ltChars as bs

/-- The JS relational operator on two strings. -/
def jsStrLt (a b : String) : Bool := ltChars a.data b.data

/-- The split(':') of the source, over the character sequence. -/
def splitOnColon : List Char → List (List Char)
  | [] => [[]]
  | c :: cs =>
    let r := splitOnColon cs
    if c = ':' then [] :: r
    else
      match r with
      | [] => [[c]]
      | g :: gs => (c :: g) :: gs

/-- Number() applied to a decimal-digit string, as map(Number) does to each
"HH"/"MM" component in the source. -/
def numberOfChars (cs : List Char) : Nat :=
  cs.foldl (fun acc c => acc * 10 + (c.toNat - 48)) 0

/-- Parse "HH:MM" into total minutes: the split(':').map(Number) and
h * 60 + m arithmetic of isWithinReminderWindow. -/
def timeToMinutes (s : String) : Int :=
  match splitOnColon s.data with
  | h :: m :: _ => (numberOfChars h : Int) * 60 + (numberOfChars m : Int)
  | _ => 0

/-- isWithinReminderWindow (index.js lines 346-354): within one minute of
the configured target. -/
def isWithinReminderWindow (currentTime targetTime : String) : Bool :=
  (timeToMinutes currentTime - timeToMinutes targetTime).natAbs ≤ 1

/-- isInQuietHours (index.js lines 359-365): JS string comparisons, so
code-point lexicographic order; overnight span when start exceeds end. -/
def isInQuietHours (current startT endT : String) : Bool :=
  if jsStrLt endT startT then
    !jsStrLt current startT || jsStrLt current endT
  else
    !jsStrLt current startT && jsStrLt current endT

/-- The every-minute cron closure (index.js lines 312-340): enabled guard,
reminder-window guard, quiet-hours guard, then sendHabitReminder. -/
def cronTick (sendFn : Subscription → SendResult) (today currentTime : String)
    (st : ServerState) : ServerState × Bool :=
  if !st.settings.habitRemindersEnabled then (st, false)
  else
    let reminderTime := orDefault st.settings.reminderTime "20:00"
    if !isWithinReminderWindow currentTime reminderTime then (st, false)
    else if st.settings.quietHoursEnabled &&
        isInQuietHours currentTime (orDefault st.settings.quietHoursStart "22:00")
          (orDefault st.settings.quietHoursEnd "08:00") then (st, false)
    else sendHabitReminder sendFn today st

/-- Minimal task descriptor received by POST /check-tasks; dueDate is the
parsed epoch-millisecond timestamp, none when absent or falsy. -/
structure TaskItem where
  id : String
  title : String
  priority : String
  status : String
  dueDate : Option Int
  deriving DecidableEq, Repr

/-- thirtyMinutes constant (index.js line 260), in milliseconds. -/
def thirtyMinutes : Int := 30 * 60 * 1000

/-- The guard chain of the /check-tasks loop body (index.js lines 263-283):
priority, status, due-date presence, and the 30-minute window. -/
def dueSoonFilter (now : Int) (t : TaskItem) : Bool :=
  if t.priority != "High" && t.priority != "Critical" then false
  else if t.status == "Completed" then false
  else
    match t.dueDate with
    | none => false
    | some due =>
      let timeUntilDue := due - now
      decide (0 < timeUntilDue) && decide (timeUntilDue ≤ thirtyMinutes)

/-- One iteration of the /check-tasks loop (index.js lines 263-302): skip a
non-candidate, skip an already-notified task, otherwise dispatch to all
subscribers, mark the task id, and count the send. -/
def processTask (sendFn : Subscription → SendResult) (now : Int) (nowMs : Nat)
    (acc : ServerState × Nat) (t : TaskItem) : ServerState × Nat :=
  if dueSoonFilter now t then
    if wasTaskNotificationSent acc.1.state t.id then acc
    else
      let r := sendToAllSubscribers sendFn acc.1.subs
      let st2 := { acc.1 with subs := r.2, state := markTaskNotificationSent t.id nowMs acc.1.state }
      (st2, acc.2 + 1)
  else acc

/-- POST /check-tasks handler body (index.js lines 252-305): fold the loop
over the submitted tasks, returning the new state and the sent count. -/
def checkTasks (sendFn : Subscription → SendResult) (now : Int) (nowMs : Nat)
    (tasks : List TaskItem) (st : ServerState) : ServerState × Nat :=
  tasks.foldl (processTask sendFn now nowMs) (st, 0)

/-- Partial settings object received by PUT /settings; a none field is an
absent key. -/
structure SettingsUpdate where
  reminderTime : Option String
  habitRemindersEnabled : Option Bool
  taskRemindersEnabled : Option Bool
  quietHoursEnabled : Option Bool
  quietHoursStart : Option String
  quietHoursEnd : Option String
  deriving DecidableEq, Repr

/-- An update object with every key absent. -/
def emptyUpdate : SettingsUpdate :=
  { reminderTime := none, habitRemindersEnabled := none, taskRemindersEnabled := none
    quietHoursEnabled := none, quietHoursStart := none, quietHoursEnd := none }

/-- JS object spread of the update over the current settings. -/
def mergeSettings (current : Settings) (u : SettingsUpdate) : Settings :=
  { reminderTime := u.reminderTime.getD current.reminderTime
    habitRemindersEnabled := u.habitRemindersEnabled.getD current.habitRemindersEnabled
    taskRemindersEnabled := u.taskRemindersEnabled.getD current.taskRemindersEnabled
    quietHoursEnabled := u.quietHoursEnabled.getD current.quietHoursEnabled
    quietHoursStart := u.quietHoursStart.getD current.quietHoursStart
    quietHoursEnd := u.quietHoursEnd.getD current.quietHoursEnd }

/-- updateSettings (subscriptions.js lines 62-77): when a truthy
reminderTime differs from the current one, clear habitReminderLastSent in
the notification state, then merge and persist the settings. -/
def updateSettings (u : SettingsUpdate) (current : Settings)
    (state : NotificationState) : Settings × NotificationState :=
  let state2 :=
    match u.reminderTime with
    | some rt =>
      if rt != "" && rt != current.reminderTime then
        { state with habitReminderLastSent := none }
      else state
    | none => state
  (mergeSettings current u, state2)

/-- Outcome of the underlying fs.writeFileSync / renameSync pair. -/
inductive WriteOutcome where
  | ok
  | err (msg : String)
  deriving DecidableEq, Repr

/-- saveNotificationState (subscriptions.js lines 205-213): the catch block
logs the error and returns normally, so the caller always observes success;
on failure the on-disk document keeps its previous contents. -/
def saveNotificationState (w : WriteOutcome) (onDisk st : NotificationState) :
    NotificationState × Except String Unit :=
  match w with
  | WriteOutcome.ok => (st, Except.ok ())
  | WriteOutcome.err _ => (onDisk, Except.ok ())

/-- saveSettings (subscriptions.js lines 47-55): the catch block logs and
rethrows, so a write failure propagates to the caller. -/
def saveSettings (w : WriteOutcome) (onDisk st : Settings) :
    Settings × Except String Unit :=
  match w with
  | WriteOutcome.ok => (st, Except.ok ())
  | WriteOutcome.err m => (onDisk, Except.error m)

/-- saveSubscriptions (subscriptions.js lines 112-121): the catch block logs
and rethrows, so a write failure propagates to the caller. -/
def saveSubscriptions (w : WriteOutcome) (onDisk st : List Subscription) :
    List Subscription × Except String Unit :=
  match w with
  | WriteOutcome.ok => (st, Except.ok ())
  | WriteOutcome.err m => (onDisk, Except.error m)

/-- One externally visible event during a single calendar day: a scheduler
tick at some wall-clock time, or a subscribe/unsubscribe request between
ticks. -/
inductive DayEvent where
  | tick (currentTime : String)
  | subscribe (sub : Subscription) (createdAtNow : String)
  | unsubscribe (endpoint : String)

/-- Run a sequence of same-day events through the server, counting how many
times the cron tick actually dispatched the habit reminder. -/
def runDayEvents (sendFn : Subscription → SendResult) (today : String) :
    List DayEvent → ServerState → ServerState × Nat
  | [], st => (st, 0)
  | DayEvent.tick ct :: rest, st =>
    let r := cronTick sendFn today ct st
    let r2 := runDayEvents sendFn today rest r.1
    (r2.1, (if r.2 then 1 else 0) + r2.2)
  | DayEvent.subscribe sub ca :: rest, st =>
    runDayEvents sendFn today rest { st with subs := (addSubscription sub ca st.subs).1 }
  | DayEvent.unsubscribe e :: rest, st =>
    runDayEvents sendFn today rest { st with subs := (removeSubscription st.subs e).1 }

/-! ## Proof-layer helpers and concrete fixtures -/

/-- True exactly on a successful send outcome. -/
def isSuccess : SendResult → Bool
  | SendResult.success => true
  | SendResult.failure _ => false

/-- Number of registry entries carrying a given endpoint. -/
def countEndpoint (subs : List Subscription) (e : String) : Nat :=
  (subs.filter (fun s => s.endpoint == e)).length

def subA : Subscription := { endpoint := "https://push.example/a", keys := "ka", createdAt := none }
def subB : Subscription := { endpoint := "https://push.example/b", keys := "kb", createdAt := none }
def subC : Subscription := { endpoint := "https://push.example/c", keys := "kc", createdAt := none }

/-- A delivery capability for which every send succeeds. -/
def okSend : Subscription → SendResult := fun _ => SendResult.success

/-- A delivery capability for which every send fails transiently. -/
def failSend : Subscription → SendResult := fun _ => SendResult.failure 500

/-- A delivery capability returning 410 Gone for subB only. -/
def goneBSend : Subscription → SendResult :=
  fun s => if s.endpoint == subB.endpoint then SendResult.failure 410 else SendResult.success

/-- A fresh server state with two subscribers and default settings/state. -/
def stTwo : ServerState :=
  { subs := [subA, subB], state := DEFAULT_STATE, settings := DEFAULT_SETTINGS }

/-- A server state with no subscribers. -/
def stEmpty : ServerState :=
  { subs := [], state := DEFAULT_STATE, settings := DEFAULT_SETTINGS }

/-- A server state whose daily reminder is already marked sent today. -/
def stMarked : ServerState :=
  { subs := [subA, subB],
    state := { habitReminderLastSent := some "2026-10-11", taskNotifications := [] },
    settings := DEFAULT_SETTINGS }

/-! ## Claim C2 -/

/-- C2 counterexample: the claim says a failing write in
saveNotificationState propagates to the caller; at the concrete failing
write below the call nevertheless reports success, so the universally
quantified claim is false. -/
theorem claim_C2_counterexample :
    (saveNotificationState (WriteOutcome.err "EIO: disk full") DEFAULT_STATE
        DEFAULT_STATE).2 = Except.ok () ∧
    ¬ (∀ (m : String) (onDisk st : NotificationState),
        (saveNotificationState (WriteOutcome.err m) onDisk st).2 ≠ Except.ok ()) := by
  refine ⟨rfl, fun h => h "EIO: disk full" DEFAULT_STATE DEFAULT_STATE rfl⟩

/-- C2 amended: a write failure in saveNotificationState is logged and
swallowed — the caller always observes success and the on-disk state keeps
its previous contents — whereas saveSettings and saveSubscriptions rethrow,
so their write failures do propagate to the caller. -/
theorem claim_C2_amended :
    (∀ (m : String) (onDisk st : NotificationState),
      saveNotificationState (WriteOutcome.err m) onDisk st = (onDisk, Except.ok ())) ∧
    (∀ (onDisk st : NotificationState),
      saveNotificationState WriteOutcome.ok onDisk st = (st, Except.ok ())) ∧
    (∀ (m : String) (onDisk st : Settings),
      (saveSettings (WriteOutcome.err m) onDisk st).2 = Except.error m) ∧
    (∀ (m : String) (onDisk st : List Subscription),
      (saveSubscriptions (WriteOutcome.err m) onDisk st).2 = Except.error m) := by
  exact ⟨fun _ _ _ => rfl, fun _ _ => rfl, fun _ _ _ => rfl, fun _ _ _ => rfl⟩

/-! ## Claim C4 -/

/-- The due-soon candidate condition in the spec's words: priority in
High/Critical, status not Completed, a due timestamp present, and
0 < dueTimestamp - now ≤ 30 minutes. -/
def candidateSpec (now : Int) (t : TaskItem) : Prop :=
  (t.priority = "High" ∨ t.priority = "Critical") ∧
  t.status ≠ "Completed" ∧
  ∃ due, t.dueDate = some due ∧ 0 < due - now ∧ due - now ≤ 30 * 60 * 1000

/-- C4: a task passes the /check-tasks guard chain, and hence becomes a
dispatch candidate, exactly when it meets the spec's due-soon condition. -/
theorem claim_C4_due_soon_window (now : Int) (t : TaskItem) :
    dueSoonFilter now t = true ↔ candidateSpec now t := by
  unfold dueSoonFilter candidateSpec thirtyMinutes
  constructor
  · intro h
    split at h
    · exact absurd h (by simp)
    · split at h
      · exact absurd h (by simp)
      · rename_i hpr hst
        cases hdue : t.dueDate with
        | none => rw [hdue] at h; exact absurd h (by simp)
        | some due =>
          rw [hdue] at h
          simp only [Bool.and_eq_true, decide_eq_true_eq] at h
          refine ⟨?_, ?_, due, rfl, h.1, h.2⟩
          · rcases Bool.not_eq_true _ |>.mp ?_ with _
            · by_contra hc
              push_neg at hc
              simp only [Bool.and_eq_true, bne_iff_ne, ne_eq] at hpr
              exact hpr ⟨hc.1, hc.2⟩
          · simpa [beq_iff_eq] using hst
  · rintro ⟨hpr, hst, due, hdue, h1, h2⟩
    rw [hdue]
    have hprb : (t.priority != "High" && t.priority != "Critical") = false := by
      rcases hpr with h | h <;> simp [h]
    have hstb : (t.status == "Completed") = false := by simpa [beq_iff_eq] using hst
    rw [hprb, hstb]
    simp [h1, h2]
    omega

/-- A high-priority planned task due at the given epoch millisecond. -/
def taskDue (d : Int) : TaskItem :=
  { id := "t1", title := "report", priority := "High", status := "Planned", dueDate := some d }

/-- C4 witness: at concrete inputs, a task due in exactly 30 minutes is a
candidate (via the theorem), while 30 minutes plus one second, due-now and
overdue tasks are not. -/
theorem claim_C4_witness :
    dueSoonFilter 0 (taskDue 1800000) = true ∧
    dueSoonFilter 0 (taskDue 1801000) = false ∧
    dueSoonFilter 0 (taskDue 0) = false ∧
    dueSoonFilter 0 (taskDue (-60000)) = false := by
  refine ⟨?_, by decide, by decide, by decide⟩
  exact (claim_C4_due_soon_window 0 (taskDue 1800000)).mpr
    ⟨Or.inl rfl, by decide, 1800000, rfl, by decide, by decide⟩

/-! ## Claim C8 -/

/-- C8: when the update carries a (truthy) reminderTime different from the
stored one, updateSettings clears habitReminderLastSent and returns the
merged settings with the new reminderTime. -/
theorem claim_C8_reminder_time_reset (u : SettingsUpdate) (current : Settings)
    (st : NotificationState) (rt : String)
    (hpresent : u.reminderTime = some rt) (hne : rt ≠ "")
    (hdiff : rt ≠ current.reminderTime) :
    (updateSettings u current st).2.habitReminderLastSent = none ∧
    (updateSettings u current st).1.reminderTime = rt := by
  unfold updateSettings mergeSettings
  rw [hpresent]
  simp [hne, hdiff]

/-- C8 witness: with habitReminderLastSent set to today, updating
reminderTime from 20:00 to 09:00 clears it while storing the new time. -/
theorem claim_C8_witness :
    (updateSettings { emptyUpdate with reminderTime := some "09:00" } DEFAULT_SETTINGS
        { habitReminderLastSent := some "2026-10-11", taskNotifications := [] }
      ).2.habitReminderLastSent = none ∧
    (updateSettings { emptyUpdate with reminderTime := some "09:00" } DEFAULT_SETTINGS
        { habitReminderLastSent := some "2026-10-11", taskNotifications := [] }
      ).1.reminderTime = "09:00" :=
  claim_C8_reminder_time_reset _ DEFAULT_SETTINGS _ "09:00" rfl (by decide) (by decide)

/-! ## Claim C3 -/

/-- C3: sendHabitReminder marks today only after a dispatch attempt: an
empty registry short-circuits without dispatching or marking, a dispatch
happens exactly when the reminder is unsent today and a subscriber exists,
and in that case today is recorded whatever the per-endpoint outcomes. -/
theorem claim_C3_mark_after_dispatch (f : Subscription → SendResult) (today : String)
    (st : ServerState) :
    (st.subs = [] → sendHabitReminder f today st = (st, false)) ∧
    ((sendHabitReminder f today st).2 = true ↔
      (wasHabitReminderSentToday today st.state = false ∧ st.subs ≠ [])) ∧
    (wasHabitReminderSentToday today st.state = false → st.subs ≠ [] →
      (sendHabitReminder f today st).1.state.habitReminderLastSent = some today) := by
  unfold sendHabitReminder
  by_cases hw : wasHabitReminderSentToday today st.state
  · simp [hw]
  · have hw' : wasHabitReminderSentToday today st.state = false := by simpa using hw
    by_cases he : st.subs = []
    · simp [hw', he]
    · have hlen : (st.subs.length == 0) = false := by
        simpa [beq_iff_eq, List.length_eq_zero] using he
      simp [hw', hlen, he, markHabitReminderSent]

/-- C3 witness: with both subscribers failing transiently the reminder is
still marked sent, and a zero-subscriber tick leaves the state untouched. -/
theorem claim_C3_witness :
    (sendHabitReminder failSend "2026-10-11" stTwo).1.state.habitReminderLastSent
        = some "2026-10-11" ∧
    sendHabitReminder failSend "2026-10-11" stEmpty = (stEmpty, false) :=
  ⟨(claim_C3_mark_after_dispatch failSend "2026-10-11" stTwo).2.2 (by decide) (by decide),
   (claim_C3_mark_after_dispatch failSend "2026-10-11" stEmpty).1 rfl⟩

/-! ## Claims C5 and C10 -/

lemma lookupTN_append_fresh (m : List (String × Nat)) (k : String) (v : Nat)
    (h : m.any (fun q => q.1 == k) = false) :
    lookupTN (m ++ [(k, v)]) k = some v := by
  induction m with
  | nil => simp [lookupTN]
  | cons p ps ih =>
    simp only [List.any_cons, Bool.or_eq_false_iff] at h
    show lookupTN (p :: (ps ++ [(k, v)])) k = some v
    simp only [lookupTN, List.find?, h.1]
    exact ih h.2

lemma lookupTN_overwrite (m : List (String × Nat)) (k : String) (v : Nat) :
    m.any (fun q => q.1 == k) = true →
    lookupTN (m.map (fun q => if q.1 == k then (k, v) else q)) k = some v := by
  induction m with
  | nil => simp
  | cons p ps ih =>
    intro h
    by_cases hp : (p.1 == k) = true
    · rw [List.map_cons, if_pos hp]
      simp [lookupTN, List.find?]
    · have hp' : (p.1 == k) = false := Bool.eq_false_iff.mpr hp
      simp only [List.any_cons, hp', Bool.false_or] at h
      rw [List.map_cons, if_neg hp]
      simp only [lookupTN, List.find?, hp']
      exact ih h

/-- Reading back the key just written by a JS property assignment. -/
lemma lookupTN_insertTN_self (m : List (String × Nat)) (k : String) (v : Nat) :
    lookupTN (insertTN m k v) k = some v := by
  unfold insertTN
  by_cases h : m.any (fun q => q.1 == k) = true
  · rw [if_pos h]
    exact lookupTN_overwrite m k v h
  · have h' : m.any (fun q => q.1 == k) = false := Bool.eq_false_iff.mpr h
    rw [if_neg h]
    exact lookupTN_append_fresh m k v h'

/-- C5: a fresh eligible task dispatches once and is recorded; resubmitting
a task with the same id (any time before a purge) dispatches nothing and
leaves the stored state unchanged. -/
theorem claim_C5_task_dedup (f : Subscription → SendResult) (now now2 : Int)
    (nowMs nowMs2 : Nat) (t t2 : TaskItem) (st : ServerState)
    (hfilter : dueSoonFilter now t = true)
    (hfresh : wasTaskNotificationSent st.state t.id = false)
    (hms : nowMs ≠ 0)
    (hid : t2.id = t.id) :
    (checkTasks f now nowMs [t] st).2 = 1 ∧
    wasTaskNotificationSent (checkTasks f now nowMs [t] st).1.state t.id = true ∧
    (checkTasks f now2 nowMs2 [t2] (checkTasks f now nowMs [t] st).1).2 = 0 ∧
    (checkTasks f now2 nowMs2 [t2] (checkTasks f now nowMs [t] st).1).1
      = (checkTasks f now nowMs [t] st).1 := by
  have h1 : checkTasks f now nowMs [t] st
      = ({ st with
            subs := (sendToAllSubscribers f st.subs).2
            state := markTaskNotificationSent t.id nowMs st.state }, 1) := by
    simp [checkTasks, processTask, hfilter, hfresh]
  have hsent : wasTaskNotificationSent
      (markTaskNotificationSent t.id nowMs st.state) t.id = true := by
    simp [wasTaskNotificationSent, markTaskNotificationSent, lookupTN_insertTN_self,
      bne_iff_ne, hms]
  have hsent2 : wasTaskNotificationSent
      (markTaskNotificationSent t.id nowMs st.state) t2.id = true := by
    rw [hid]; exact hsent
  have h2 : ∀ st2 : ServerState, wasTaskNotificationSent st2.state t2.id = true →
      checkTasks f now2 nowMs2 [t2] st2 = (st2, 0) := by
    intro st2 hs
    by_cases hf2 : dueSoonFilter now2 t2 = true
    · simp [checkTasks, processTask, hf2, hs]
    · have : dueSoonFilter now2 t2 = false := by simpa using hf2
      simp [checkTasks, processTask, this]
  rw [h1]
  refine ⟨rfl, hsent, ?_, ?_⟩
  · rw [h2 _ hsent2]
  · rw [h2 _ hsent2]

/-- C5 witness: the same concrete due-soon task submitted twice yields sent
counts one then zero. -/
theorem claim_C5_witness :
    (checkTasks okSend 0 5 [taskDue 1200000] stTwo).2 = 1 ∧
    (checkTasks okSend 0 5 [taskDue 1200000]
        (checkTasks okSend 0 5 [taskDue 1200000] stTwo).1).2 = 0 :=
  ⟨(claim_C5_task_dedup okSend 0 0 5 5 (taskDue 1200000) (taskDue 1200000) stTwo
      (by decide) (by decide) (by decide) rfl).1,
   (claim_C5_task_dedup okSend 0 0 5 5 (taskDue 1200000) (taskDue 1200000) stTwo
      (by decide) (by decide) (by decide) rfl).2.2.1⟩

/-- C10: the due-soon track marks a task and counts the send even with an
empty registry (dispatch over no subscribers reports zero counts), whereas
the daily track never marks on an empty registry. -/
theorem claim_C10_empty_registry_mark (f : Subscription → SendResult) (now : Int)
    (nowMs : Nat) (t : TaskItem) (st : ServerState)
    (_hsubs : st.subs = [])
    (hfilter : dueSoonFilter now t = true)
    (hfresh : wasTaskNotificationSent st.state t.id = false)
    (hms : nowMs ≠ 0) :
    (checkTasks f now nowMs [t] st).2 = 1 ∧
    lookupTN (checkTasks f now nowMs [t] st).1.state.taskNotifications t.id = some nowMs ∧
    wasTaskNotificationSent (checkTasks f now nowMs [t] st).1.state t.id = true ∧
    sendToAllSubscribers f [] = ({ success := 0, failed := 0, total := 0 }, []) ∧
    (∀ (today : String) (st2 : ServerState), st2.subs = [] →
      sendHabitReminder f today st2 = (st2, false)) := by
  have h1 : checkTasks f now nowMs [t] st
      = ({ st with
            subs := (sendToAllSubscribers f st.subs).2
            state := markTaskNotificationSent t.id nowMs st.state }, 1) := by
    simp [checkTasks, processTask, hfilter, hfresh]
  rw [h1]
  refine ⟨rfl, ?_, ?_, rfl, ?_⟩
  · simpa [markTaskNotificationSent] using lookupTN_insertTN_self st.state.taskNotifications t.id nowMs
  · simp [wasTaskNotificationSent, markTaskNotificationSent, lookupTN_insertTN_self,
      bne_iff_ne, hms]
  · intro today st2 h2
    unfold sendHabitReminder
    simp [h2]

/-- C10 witness: a concrete eligible task submitted while no subscriber is
registered is still recorded and counted. -/
theorem claim_C10_witness :
    (checkTasks okSend 0 5 [taskDue 1200000] stEmpty).2 = 1 ∧
    lookupTN (checkTasks okSend 0 5 [taskDue 1200000] stEmpty).1.state.taskNotifications
        "t1" = some 5 :=
  ⟨(claim_C10_empty_registry_mark okSend 0 5 (taskDue 1200000) stEmpty rfl
      (by decide) (by decide) (by decide)).1,
   (claim_C10_empty_registry_mark okSend 0 5 (taskDue 1200000) stEmpty rfl
      (by decide) (by decide) (by decide)).2.1⟩

/-! ## Claim C7 -/

/-- C7: addSubscription refuses an endpoint already present (registry
unchanged, false), appends a fresh endpoint with the server-assigned
createdAt (true), and adding the same endpoint twice to a registry that
lacked it leaves exactly one entry and returns false the second time. -/
theorem claim_C7_add_idempotent (sub : Subscription) (ca1 ca2 : String)
    (subs : List Subscription) :
    ((∃ s ∈ subs, s.endpoint = sub.endpoint) →
      addSubscription sub ca1 subs = (subs, false)) ∧
    ((∀ s ∈ subs, s.endpoint ≠ sub.endpoint) →
      addSubscription sub ca1 subs
        = (subs ++ [{ sub with createdAt := some ca1 }], true)) ∧
    (countEndpoint subs sub.endpoint = 0 →
      (addSubscription sub ca2 (addSubscription sub ca1 subs).1).2 = false ∧
      (addSubscription sub ca2 (addSubscription sub ca1 subs).1).1
        = (addSubscription sub ca1 subs).1 ∧
      countEndpoint (addSubscription sub ca1 subs).1 sub.endpoint = 1) := by
  refine ⟨?_, ?_, ?_⟩
  · rintro ⟨s, hs, he⟩
    have hany : subs.any (fun s => s.endpoint == sub.endpoint) = true :=
      List.any_eq_true.mpr ⟨s, hs, beq_iff_eq.mpr he⟩
    simp [addSubscription, hany]
  · intro hall
    have hany : subs.any (fun s => s.endpoint == sub.endpoint) = false := by
      rw [List.any_eq_false]
      intro s hs
      simp [hall s hs]
    simp [addSubscription, hany]
  · intro hcount
    unfold countEndpoint at hcount
    have hfe : subs.filter (fun s => s.endpoint == sub.endpoint) = [] :=
      List.length_eq_zero.mp hcount
    have hnone : ∀ s ∈ subs, (s.endpoint == sub.endpoint) = false := by
      intro s hs
      exact Bool.eq_false_iff.mpr (List.filter_eq_nil_iff.mp hfe s hs)
    have hany : subs.any (fun s => s.endpoint == sub.endpoint) = false := by
      rw [List.any_eq_false]
      intro s hs
      simp [hnone s hs]
    have h1 : addSubscription sub ca1 subs
        = (subs ++ [{ sub with createdAt := some ca1 }], true) := by
      simp [addSubscription, hany]
    rw [h1]
    have hself : (({ sub with createdAt := some ca1 } : Subscription).endpoint
        == sub.endpoint) = true := by simp
    have hany2 : ((subs ++ [{ sub with createdAt := some ca1 }]).any
        (fun s => s.endpoint == sub.endpoint)) = true := by
      rw [List.any_append]
      simp
    refine ⟨?_, ?_, ?_⟩
    · simp [addSubscription, hany2]
    · simp [addSubscription, hany2]
    · unfold countEndpoint
      rw [List.filter_append, hfe]
      simp

/-- C7 witness: registering the same endpoint twice into an empty registry
leaves one entry and returns false on the second call. -/
theorem claim_C7_witness :
    (addSubscription subA "2026-10-11T10:01:00Z" (addSubscription subA
        "2026-10-11T10:00:00Z" []).1).2 = false ∧
    countEndpoint (addSubscription subA "2026-10-11T10:00:00Z" []).1 subA.endpoint = 1 :=
  ⟨((claim_C7_add_idempotent subA "2026-10-11T10:00:00Z" "2026-10-11T10:01:00Z" []).2.2
      rfl).1,
   ((claim_C7_add_idempotent subA "2026-10-11T10:00:00Z" "2026-10-11T10:01:00Z" []).2.2
      rfl).2.2⟩

/-! ## Claim C9 -/

/-- The quiet-hours condition in the spec's words: for an overnight span
(start exceeding end) the current time is inside iff it is at-or-after
start or strictly before end; otherwise inside iff at-or-after start and
strictly before end, a half-open interval. -/
def quietHoursSpec (current startT endT : String) : Prop :=
  if jsStrLt endT startT = true then
    jsStrLt current startT = false ∨ jsStrLt current endT = true
  else
    jsStrLt current startT = false ∧ jsStrLt current endT = true

/-- Inside quiet hours with quiet hours enabled, the cron tick returns
without dispatching. -/
lemma cronTick_quiet (f : Subscription → SendResult) (today ct : String)
    (st : ServerState)
    (h1 : st.settings.quietHoursEnabled = true)
    (h2 : isInQuietHours ct (orDefault st.settings.quietHoursStart "22:00")
        (orDefault st.settings.quietHoursEnd "08:00") = true) :
    cronTick f today ct st = (st, false) := by
  unfold cronTick
  split_ifs with hc1 hc2
  · rfl
  · simp
  · exact absurd (by rw [h1, h2]; rfl) hc2

/-- C9: the quiet-hours classification matches the spec's overnight and
same-day readings, classifies the four sample times as the spec says, and a
tick inside quiet hours dispatches no daily reminder. -/
theorem claim_C9_quiet_hours (current startT endT : String)
    (f : Subscription → SendResult) (today ct : String) (st : ServerState) :
    (isInQuietHours current startT endT = true ↔ quietHoursSpec current startT endT) ∧
    (isInQuietHours "23:00" "22:00" "08:00" = true ∧
     isInQuietHours "02:00" "22:00" "08:00" = true ∧
     isInQuietHours "09:00" "22:00" "08:00" = false ∧
     isInQuietHours "21:59" "22:00" "08:00" = false) ∧
    (st.settings.quietHoursEnabled = true →
     isInQuietHours ct (orDefault st.settings.quietHoursStart "22:00")
        (orDefault st.settings.quietHoursEnd "08:00") = true →
     cronTick f today ct st = (st, false)) := by
  refine ⟨?_, ⟨by decide, by decide, by decide, by decide⟩, cronTick_quiet f today ct st⟩
  unfold isInQuietHours quietHoursSpec
  by_cases hov : jsStrLt endT startT = true
  · simp only [hov, if_true, if_pos]
    constructor
    · intro h
      rcases Bool.or_eq_true_iff.mp h with h | h
      · exact Or.inl (by simpa using h)
      · exact Or.inr h
    · intro h
      rcases h with h | h
      · exact Bool.or_eq_true_iff.mpr (Or.inl (by simp [h]))
      · exact Bool.or_eq_true_iff.mpr (Or.inr h)
  · have hov' : jsStrLt endT startT = false := Bool.eq_false_iff.mpr hov
    simp only [hov', Bool.false_eq_true, if_false]
    constructor
    · intro h
      rcases Bool.and_eq_true_iff.mp h with ⟨ha, hb⟩
      exact ⟨by simpa using ha, hb⟩
    · rintro ⟨ha, hb⟩
      exact Bool.and_eq_true_iff.mpr ⟨by simp [ha], hb⟩

/-- C9 witness: applies the classification at the spec's sample inputs and
the suppression at a concrete enabled-quiet-hours state. -/
theorem claim_C9_witness :
    isInQuietHours "23:00" "22:00" "08:00" = true ∧
    cronTick okSend "2026-10-11" "23:00"
        { stTwo with settings := { DEFAULT_SETTINGS with quietHoursEnabled := true } }
      = ({ stTwo with settings := { DEFAULT_SETTINGS with quietHoursEnabled := true } },
         false) :=
  ⟨(claim_C9_quiet_hours "23:00" "22:00" "08:00" okSend "2026-10-11" "23:00" stTwo).2.1.1,
   (claim_C9_quiet_hours "23:00" "22:00" "08:00" okSend "2026-10-11" "23:00"
      { stTwo with settings := { DEFAULT_SETTINGS with quietHoursEnabled := true } }).2.2
     rfl (by decide)⟩

/-! ## Claim C6 -/

/-- removeSubscription stores exactly the endpoint-filtered registry. -/
lemma removeSubscription_fst (subs : List Subscription) (e : String) :
    (removeSubscription subs e).1 = subs.filter (fun s => s.endpoint != e) := by
  unfold removeSubscription
  dsimp only
  split_ifs with h
  · rfl
  · push_neg at h
    have hle := List.length_filter_le (fun s => s.endpoint != e) subs
    have heq : ((subs.filter (fun s => s.endpoint != e)).length = subs.length) :=
      le_antisymm hle h
    exact (List.filter_eq_self.mpr (List.filter_length_eq_length.mp heq)).symm

/-- Closed form of the dispatch loop: outcome counts over the snapshot, and
the registry filtered by the permanently failed endpoints of the snapshot. -/
lemma sendLoop_spec (f : Subscription → SendResult) :
    ∀ (l registry : List Subscription) (s fl : Nat),
      sendLoop f l registry s fl =
        (s + l.countP (fun y => isSuccess (f y)),
         fl + l.countP (fun y => !isSuccess (f y)),
         registry.filter (fun x =>
           !(l.any (fun y => isPermanentFailure (f y) && y.endpoint == x.endpoint)))) := by
  intro l
  induction l with
  | nil =>
    intro registry s fl
    simp [sendLoop]
  | cons sub rest ih =>
    intro registry s fl
    cases hf : f sub with
    | success =>
      simp only [sendLoop, hf]
      rw [ih]
      simp only [Prod.mk.injEq]
      refine ⟨?_, ?_, ?_⟩
      · rw [List.countP_cons]
        simp [isSuccess, hf]
        omega
      · rw [List.countP_cons]
        simp [isSuccess, hf]
      · apply List.filter_congr
        intro x hx
        simp [List.any_cons, isPermanentFailure, hf]
    | failure code =>
      by_cases hperm : (code == 410 || code == 404) = true
      · simp only [sendLoop, hf, hperm, if_true]
        rw [ih, removeSubscription_fst]
        simp only [Prod.mk.injEq]
        refine ⟨?_, ?_, ?_⟩
        · rw [List.countP_cons]
          simp [isSuccess, hf]
        · rw [List.countP_cons]
          simp [isSuccess, hf]
          omega
        · rw [List.filter_filter]
          apply List.filter_congr
          intro x hx
          simp only [List.any_cons, isPermanentFailure, hf, hperm, Bool.true_and,
            Bool.not_or, bne]
          by_cases hxy : x.endpoint = sub.endpoint
          · simp [hxy, Bool.and_comm]
          · have h1 : (x.endpoint == sub.endpoint) = false := by simp [hxy]
            have hxy' : ¬ sub.endpoint = x.endpoint := fun h => hxy (Eq.symm h)
            have h2 : (sub.endpoint == x.endpoint) = false := by simp [hxy']
            simp [h1, h2, Bool.and_comm]
      · have hperm' : (code == 410 || code == 404) = false := Bool.eq_false_iff.mpr hperm
        simp only [sendLoop, hf, hperm', Bool.false_eq_true, if_false]
        rw [ih]
        simp only [Prod.mk.injEq]
        refine ⟨?_, ?_, ?_⟩
        · rw [List.countP_cons]
          simp [isSuccess, hf]
        · rw [List.countP_cons]
          simp [isSuccess, hf]
          omega
        · apply List.filter_congr
          intro x hx
          simp [List.any_cons, isPermanentFailure, hf, hperm']

/-- C6: under the registry invariant of unique endpoints, a dispatch keeps
exactly the subscriptions whose send did not fail permanently (410/404),
and every subscription is attempted: the counts partition the snapshot. -/
theorem claim_C6_prune_on_permanent_failure (f : Subscription → SendResult)
    (subs : List Subscription)
    (hnd : (subs.map Subscription.endpoint).Nodup) :
    (sendToAllSubscribers f subs).2
      = subs.filter (fun s => !isPermanentFailure (f s)) ∧
    (sendToAllSubscribers f subs).1.success
      = subs.countP (fun y => isSuccess (f y)) ∧
    (sendToAllSubscribers f subs).1.failed
      = subs.countP (fun y => !isSuccess (f y)) ∧
    (sendToAllSubscribers f subs).1.total = subs.length := by
  have hloop := sendLoop_spec f subs subs 0 0
  have hreg : (sendToAllSubscribers f subs).2
      = subs.filter (fun x =>
          !(subs.any (fun y => isPermanentFailure (f y) && y.endpoint == x.endpoint))) := by
    unfold sendToAllSubscribers
    rw [hloop]
  refine ⟨?_, ?_, ?_, rfl⟩
  · rw [hreg]
    apply List.filter_congr
    intro x hx
    by_cases hp : isPermanentFailure (f x) = true
    · have hany : (subs.any (fun y => isPermanentFailure (f y) && y.endpoint == x.endpoint))
          = true :=
        List.any_eq_true.mpr ⟨x, hx, by simp [hp]⟩
      rw [hany, hp]
    · have hp' : isPermanentFailure (f x) = false := Bool.eq_false_iff.mpr hp
      have hany : (subs.any (fun y => isPermanentFailure (f y) && y.endpoint == x.endpoint))
          = false := by
        rw [List.any_eq_false]
        intro y hy
        by_cases hxy : y.endpoint = x.endpoint
        · have : y = x := List.inj_on_of_nodup_map hnd hy hx hxy
          subst this
          simp [hp']
        · simp [hxy]
      rw [hany, hp']
  · unfold sendToAllSubscribers
    rw [hloop]
    simp
  · unfold sendToAllSubscribers
    rw [hloop]
    simp

/-- C6 witness: of three registered subscriptions, the one whose send
returns 410 is pruned while the other two remain, and all three sends are
attempted. -/
theorem claim_C6_witness :
    (sendToAllSubscribers goneBSend [subA, subB, subC]).2 = [subA, subC] ∧
    (sendToAllSubscribers goneBSend [subA, subB, subC]).1
      = { success := 2, failed := 1, total := 3 } := by
  have h := claim_C6_prune_on_permanent_failure goneBSend [subA, subB, subC] (by decide)
  refine ⟨?_, ?_⟩
  · rw [h.1]
    decide
  · have hs := h.2.1
    have hfl := h.2.2.1
    have ht := h.2.2.2
    have : (sendToAllSubscribers goneBSend [subA, subB, subC]).1
        = { success := (sendToAllSubscribers goneBSend [subA, subB, subC]).1.success,
            failed := (sendToAllSubscribers goneBSend [subA, subB, subC]).1.failed,
            total := (sendToAllSubscribers goneBSend [subA, subB, subC]).1.total } := rfl
    rw [this, hs, hfl, ht]
    decide

/-! ## Claim C1 -/

/-- A tick finding the reminder already marked sent today changes nothing. -/
lemma sendHabitReminder_of_marked (f : Subscription → SendResult) (today : String)
    (st : ServerState) (h : wasHabitReminderSentToday today st.state = true) :
    sendHabitReminder f today st = (st, false) := by
  unfold sendHabitReminder
  simp [h]

/-- cronTick on an already-marked state is a no-op. -/
lemma cronTick_marked_noop (f : Subscription → SendResult) (today ct : String)
    (st : ServerState) (h : wasHabitReminderSentToday today st.state = true) :
    cronTick f today ct st = (st, false) := by
  unfold cronTick
  split_ifs with h1 h2
  · rfl
  · simp
  · dsimp only
    split_ifs with h3
    · rfl
    · exact sendHabitReminder_of_marked f today st h

/-- A cron tick either performs no dispatch, or leaves the state marked as
sent today. -/
lemma cronTick_false_or_marked (f : Subscription → SendResult) (today ct : String)
    (st : ServerState) :
    (cronTick f today ct st).2 = false ∨
    wasHabitReminderSentToday today (cronTick f today ct st).1.state = true := by
  unfold cronTick
  split_ifs with h1 h2
  · exact Or.inl rfl
  · left
    simp
  · dsimp only
    split_ifs with h3
    · exact Or.inl rfl
    · unfold sendHabitReminder
      split_ifs with h4 h5
      · exact Or.inr h4
      · exact Or.inl rfl
      · right
        simp [wasHabitReminderSentToday, markHabitReminderSent]

/-- Once marked sent today, a whole day of further events dispatches nothing
and the mark survives. -/
lemma runDayEvents_marked_noop (f : Subscription → SendResult) (today : String) :
    ∀ (evs : List DayEvent) (st : ServerState),
      wasHabitReminderSentToday today st.state = true →
      (runDayEvents f today evs st).2 = 0 ∧
      wasHabitReminderSentToday today (runDayEvents f today evs st).1.state = true := by
  intro evs
  induction evs with
  | nil =>
    intro st h
    exact ⟨rfl, h⟩
  | cons e rest ih =>
    intro st h
    cases e with
    | tick ct =>
      have hc := cronTick_marked_noop f today ct st h
      have hr := ih st h
      simp only [runDayEvents, hc]
      exact ⟨by simp [hr.1], hr.2⟩
    | subscribe sub ca =>
      simp only [runDayEvents]
      exact ih _ h
    | unsubscribe e2 =>
      simp only [runDayEvents]
      exact ih _ h

/-- Any same-day event sequence dispatches the daily reminder at most once. -/
lemma runDayEvents_le_one (f : Subscription → SendResult) (today : String) :
    ∀ (evs : List DayEvent) (st : ServerState), (runDayEvents f today evs st).2 ≤ 1 := by
  intro evs
  induction evs with
  | nil =>
    intro st
    simp [runDayEvents]
  | cons e rest ih =>
    intro st
    cases e with
    | tick ct =>
      rcases cronTick_false_or_marked f today ct st with hfalse | hmarked
      · simp only [runDayEvents]
        simp [hfalse]
        exact ih _
      · have hr := runDayEvents_marked_noop f today rest (cronTick f today ct st).1 hmarked
        simp only [runDayEvents]
        rw [hr.1]
        split_ifs <;> simp
    | subscribe sub ca =>
      simp only [runDayEvents]
      exact ih _
    | unsubscribe e2 =>
      simp only [runDayEvents]
      exact ih _

/-- C1: over any sequence of same-day ticks (with subscribe/unsubscribe
requests in between, settings untouched), the habit reminder is dispatched
at most once; and once marked sent today, every later tick dispatches
nothing and still finds the mark set. -/
theorem claim_C1_at_most_once_daily (f : Subscription → SendResult) (today : String)
    (evs : List DayEvent) (st : ServerState) :
    (runDayEvents f today evs st).2 ≤ 1 ∧
    (wasHabitReminderSentToday today st.state = true →
      (runDayEvents f today evs st).2 = 0 ∧
      wasHabitReminderSentToday today (runDayEvents f today evs st).1.state = true) :=
  ⟨runDayEvents_le_one f today evs st,
   fun h => runDayEvents_marked_noop f today evs st h⟩

/-- C1 witness: three ticks around the default 20:00 window dispatch once in
total (two fall inside the window); from a marked state the same ticks
dispatch zero times. -/
theorem claim_C1_witness :
    (runDayEvents okSend "2026-10-11"
        [DayEvent.tick "19:59", DayEvent.tick "20:00", DayEvent.tick "20:01"] stTwo).2 ≤ 1 ∧
    (runDayEvents okSend "2026-10-11"
        [DayEvent.tick "19:59", DayEvent.tick "20:00", DayEvent.tick "20:01"] stTwo).2 = 1 ∧
    (runDayEvents okSend "2026-10-11"
        [DayEvent.tick "20:00", DayEvent.tick "20:01"] stMarked).2 = 0 :=
  ⟨(claim_C1_at_most_once_daily okSend "2026-10-11"
      [DayEvent.tick "19:59", DayEvent.tick "20:00", DayEvent.tick "20:01"] stTwo).1,
   by decide,
   ((claim_C1_at_most_once_daily okSend "2026-10-11"
      [DayEvent.tick "20:00", DayEvent.tick "20:01"] stMarked).2 (by decide)).1⟩
